import Mathlib

/-!
Verification of the NHANES Inflammatory Resilience Index (IRI) cohort pipeline.

The definitions below are a shallow embedding of the row-level and column-level
semantics of `scripts/02_build_cohort.py`, `scripts/02_harmonize_iri.py` and
`scripts/03_link_mortality.py`.  A missing value (pandas `NaN`) is modelled as
`none : Option ℚ`.  Arithmetic on possibly-missing values propagates `none`
exactly as IEEE NaN propagates through pandas arithmetic, and an ordered or
equality comparison against a missing value is `false`, as in pandas/numpy.
-/

namespace IRI

/-- NaN-propagating addition of two possibly-missing values (pandas `+`). -/
def optAdd : Option ℚ → Option ℚ → Option ℚ
  | some a, some b => some (a + b)
  | _, _ => none

/-- NaN-propagating unary negation (pandas unary minus). -/
def optNeg : Option ℚ → Option ℚ
  | some a => some (-a)
  | none => none

/-- NaN-propagating multiplication by a scalar (pandas `* -1`). -/
def optScale : Option ℚ → ℚ → Option ℚ
  | some a, c => some (a * c)
  | none, _ => none

/-- Pandas comparison `x >= c`: `false` when `x` is missing. -/
def optGe (x : Option ℚ) (c : ℚ) : Bool :=
  match x with
  | some a => decide (c ≤ a)
  | none => false

/-- Pandas comparison `x <= c`: `false` when `x` is missing. -/
def optLe (x : Option ℚ) (c : ℚ) : Bool :=
  match x with
  | some a => decide (a ≤ c)
  | none => false

/-- Pandas comparison `x == c`: `false` when `x` is missing. -/
def optEq (x : Option ℚ) (c : ℚ) : Bool :=
  match x with
  | some a => decide (a = c)
  | none => false

/-!
Composite index construction.

`02_build_cohort.py` line 206: `df['iri'] = df['z_crp_inv'] + df['z_albumin'] + df['z_almi']`
with `df['z_crp_inv'] = df['z_crp'] * -1` (line 185).
`02_harmonize_iri.py` line 493: `df['iri'] = (-df['z_log_hscrp']) + df['z_albumin'] + df['z_grip']`.
-/

/-- Row semantics of the IRI sum in `build_iri_cohort` (`02_build_cohort.py`,
lines 185 and 206): the inverted CRP z-score is the CRP z-score times `-1`,
and the index is the NaN-propagating sum of the three z-score columns. -/
def build_iri_row (zcrp zalb zalmi : Option ℚ) : Option ℚ :=
  optAdd (optAdd (optScale zcrp (-1)) zalb) zalmi

/-- Row semantics of the IRI sum in `construct_iri` (`02_harmonize_iri.py`,
line 493): negated CRP z-score plus albumin z-score plus grip z-score. -/
def construct_iri_row (zcrp zalb zgrip : Option ℚ) : Option ℚ :=
  optAdd (optAdd (optNeg zcrp) zalb) zgrip

/-- C1: in both scripts the composite index of a subject is missing iff at
least one of the three standardized components is missing, and when all three
are present it equals their sum with the inflammation component's sign
flipped — never a partial sum over the present components. -/
theorem c1_iri_missing_iff_component_missing :
    (∀ a b c : Option ℚ, build_iri_row a b c = none ↔ a = none ∨ b = none ∨ c = none) ∧
    (∀ x y z : ℚ, build_iri_row (some x) (some y) (some z) = some (-x + y + z)) ∧
    (∀ a b c : Option ℚ, construct_iri_row a b c = none ↔ a = none ∨ b = none ∨ c = none) ∧
    (∀ x y z : ℚ, construct_iri_row (some x) (some y) (some z) = some (-x + y + z)) := by
  refine ⟨?_, ?_, ?_, ?_⟩
  · intro a b c
    cases a <;> cases b <;> cases c <;> simp [build_iri_row, optAdd, optScale]
  · intro x y z
    simp only [build_iri_row, optAdd, optScale, Option.some.injEq]
    ring
  · intro a b c
    cases a <;> cases b <;> cases c <;> simp [construct_iri_row, optAdd, optNeg]
  · intro x y z
    rfl

/-!
Hypertension flag.

`02_build_cohort.py` line 227:
`df['hypertension'] = ((df['mean_sbp'] >= 130) | (df['mean_dbp'] >= 80) | (bp_med == 1)).astype(float)`
which is a defined 0.0/1.0 for every row (comparisons with NaN are False).

`02_harmonize_iri.py` lines 278-283 (`define_hypertension`): the same boolean
cast to float, but rows where it is 0 and all three inputs are NaN are then
overwritten with NaN.
-/

/-- Row semantics of the hypertension column of `build_iri_cohort`
(`02_build_cohort.py`, line 227).  The `astype(float)` of a boolean yields a
present 0.0/1.0 for every row, hence the result is always `some`. -/
def build_hypertension (msbp mdbp med : Option ℚ) : Option ℚ :=
  some (if optGe msbp 130 || optGe mdbp 80 || optEq med 1 then 1 else 0)

/-- Row semantics of `define_hypertension` (`02_harmonize_iri.py`, lines
270-285): 1 when any condition holds, NaN when the flag would be 0 and all
three inputs are missing, else 0. -/
def define_hypertension (msbp mdbp med : Option ℚ) : Option ℚ :=
  if optGe msbp 130 || optGe mdbp 80 || optEq med 1 then some 1
  else if msbp.isNone && mdbp.isNone && med.isNone then none
  else some 0

/-- C6 counterexample: in `build_iri_cohort` a subject with all three
hypertension inputs missing gets the defined value 0 (a false flag), not a
missing value as the claim requires. -/
theorem c6_counterexample :
    build_hypertension none none none = some 0 ∧
    build_hypertension none none none ≠ none := by
  constructor
  · rfl
  · simp [build_hypertension]

/-- C6 amended: the harmonization script's flag (`define_hypertension`) is
true when mean systolic ≥ 130 or mean diastolic ≥ 80 or the medication flag
is 1, and is missing exactly when all three inputs are missing; the cohort
script's flag (`build_hypertension`) is never missing and is 0 (false) for a
subject with all three inputs missing. -/
theorem c6_hypertension_amended :
    (∀ a b c : Option ℚ,
      (define_hypertension a b c = none ↔ a = none ∧ b = none ∧ c = none)) ∧
    (∀ a b c : Option ℚ,
      (define_hypertension a b c = some 1 ↔
        (optGe a 130 || optGe b 80 || optEq c 1) = true)) ∧
    (∀ a b c : Option ℚ, (build_hypertension a b c).isSome = true) := by
  refine ⟨?_, ?_, ?_⟩
  · intro a b c
    cases a <;> cases b <;> cases c <;>
      simp [define_hypertension, optGe, optEq] <;> split_ifs <;> simp_all
  · intro a b c
    unfold define_hypertension
    split_ifs with h1 h2 <;> simp_all
  · intro a b c
    simp [build_hypertension]

/-!
Diabetes and cardiovascular-history flags.

`02_harmonize_iri.py` lines 288-304 (`define_diabetes`) and 328-340
(`define_cvd_history`); `02_build_cohort.py` lines 229-256.  Every one of
these is a boolean combination of NaN-rejecting comparisons cast with
`astype(float)`, hence a defined 0.0/1.0 on every row.
-/

/-- Row semantics of `define_diabetes` (`02_harmonize_iri.py`, lines
288-304). -/
def define_diabetes (hba1c glucose told insulin oral : Option ℚ) : ℚ :=
  if optGe hba1c 6.5 || optGe glucose 126 || optEq told 1 ||
      optEq insulin 1 || optEq oral 1 then 1 else 0

/-- Row semantics of the diabetes flag of `build_iri_cohort`
(`02_build_cohort.py`, line 234). -/
def build_diabetes (hba1c glucose told : Option ℚ) : ℚ :=
  if optGe hba1c 6.5 || optGe glucose 126 || optEq told 1 then 1 else 0

/-- Row semantics of `define_cvd_history` (`02_harmonize_iri.py`, lines
328-340). -/
def define_cvd_history (chf chd angina mi stroke : Option ℚ) : ℚ :=
  if optEq chf 1 || optEq chd 1 || optEq angina 1 ||
      optEq mi 1 || optEq stroke 1 then 1 else 0

/-- Row semantics of the CVD-history flag of `build_iri_cohort`
(`02_build_cohort.py`, line 256). -/
def build_cvd_history (chd mi stroke angina chf : Option ℚ) : ℚ :=
  if optEq chd 1 || optEq mi 1 || optEq stroke 1 ||
      optEq angina 1 || optEq chf 1 then 1 else 0

/-- C10: the diabetes and cardiovascular-history flags are total in both
scripts — every subject receives exactly 0 or 1, never a missing value — and
a subject with every contributing input missing receives 0, because a
comparison against a missing input counts as false. -/
theorem c10_diabetes_cvd_flags_total :
    (∀ a b c d e : Option ℚ,
      define_diabetes a b c d e = 0 ∨ define_diabetes a b c d e = 1) ∧
    (∀ a b c d e : Option ℚ,
      define_cvd_history a b c d e = 0 ∨ define_cvd_history a b c d e = 1) ∧
    (∀ a b c : Option ℚ, build_diabetes a b c = 0 ∨ build_diabetes a b c = 1) ∧
    (∀ a b c d e : Option ℚ,
      build_cvd_history a b c d e = 0 ∨ build_cvd_history a b c d e = 1) ∧
    define_diabetes none none none none none = 0 ∧
    define_cvd_history none none none none none = 0 ∧
    build_diabetes none none none = 0 ∧
    build_cvd_history none none none none none = 0 := by
  refine ⟨?_, ?_, ?_, ?_, rfl, rfl, rfl, rfl⟩
  · intro a b c d e
    unfold define_diabetes
    split_ifs <;> simp
  · intro a b c d e
    unfold define_cvd_history
    split_ifs <;> simp
  · intro a b c
    unfold build_diabetes
    split_ifs <;> simp
  · intro a b c d e
    unfold build_cvd_history
    split_ifs <;> simp

/-!
Appendicular lean mass.

`02_build_cohort.py` lines 109-132 (`calculate_alm`): when all four DEXA limb
columns exist in the table, the row value is `df[cols].sum(axis=1) / 1000`.
Pandas `DataFrame.sum(axis=1)` defaults to `skipna=True` and `min_count=0`, so
the row sum adds only the present entries and an all-missing row sums to 0.
-/

/-- Row semantics of `calculate_alm` (`02_build_cohort.py`, line 127) in the
configuration where all four limb columns exist in the table: the skipna sum
of the present limb values in grams, divided by 1000.  The result is a
defined number for every row. -/
def calculate_alm (la ra ll rl : Option ℚ) : ℚ :=
  ([la, ra, ll, rl].filterMap id).sum / 1000

/-- C3: the code computes a partial lean-mass sum.  A subject with three of
the four limb fields present (1000 g + 2000 g + 3000 g, fourth missing) gets
the defined value 6 kg instead of a missing value, and a subject with all
four fields missing gets 0 kg. -/
theorem c3_alm_partial_sum :
    calculate_alm (some 1000) (some 2000) (some 3000) none = 6 ∧
    calculate_alm none none none none = 0 := by
  constructor <;> · simp [calculate_alm]; try norm_num

/-!
Eligibility.

`02_build_cohort.py` lines 268-277: `eligible` is the conjunction of
age ≥ 20, IRI non-missing, hs-CRP ≤ 10 and a non-missing MEC weight — the
hs-CRP validity ceiling is part of baseline eligibility itself, and the
script defines no separate primary-analysis flag.

`02_harmonize_iri.py` lines 619-654 (`apply_eligibility_criteria`):
`eligible` is the conjunction of age ≥ 18 (missing age passes, since only
`age < 18` zeroes the flag), not pregnant, and all three raw IRI components
present; `primary_analysis = eligible AND hscrp <= 10`.  No survey-weight
condition appears.
-/

/-- Pandas comparison `x < c`: `false` when `x` is missing. -/
def optLt (x : Option ℚ) (c : ℚ) : Bool :=
  match x with
  | some a => decide (a < c)
  | none => false

/-- Row semantics of the `eligible` column of `build_iri_cohort`
(`02_build_cohort.py`, lines 268-277). -/
def build_eligible (age iri hscrp weight : Option ℚ) : Bool :=
  optGe age 20 && iri.isSome && optLe hscrp 10 && weight.isSome

/-- Row semantics of the `eligible` column of `apply_eligibility_criteria`
(`02_harmonize_iri.py`, lines 620-637). -/
def harm_eligible (age : Option ℚ) (pregnant : Bool) (hscrp albumin grip : Option ℚ) : Bool :=
  !(optLt age 18) && !pregnant && (hscrp.isSome && albumin.isSome && grip.isSome)

/-- Row semantics of the `primary_analysis` column of
`apply_eligibility_criteria` (`02_harmonize_iri.py`, line 650). -/
def harm_primary (age : Option ℚ) (pregnant : Bool) (hscrp albumin grip : Option ℚ) : Bool :=
  harm_eligible age pregnant hscrp albumin grip && optLe hscrp 10

/-- C7 counterexample: in `build_iri_cohort` the baseline eligibility flag is
not independent of the hs-CRP validity ceiling — a subject with age 50,
present composite and weight is ineligible at hs-CRP 15 mg/L and eligible at
hs-CRP 5 mg/L. -/
theorem c7_counterexample :
    build_eligible (some 50) (some 0) (some 15) (some 1) = false ∧
    build_eligible (some 50) (some 0) (some 5) (some 1) = true := by
  constructor <;> rfl

/-- C7 amended: in the harmonization script the ceiling constrains only the
primary-analysis flag — eligibility depends on hs-CRP only through its
presence, and `primary_analysis` is eligibility conjoined with hs-CRP ≤ 10;
eligibility there requires age ≥ 18, not pregnant, and presence of the three
raw components, with no survey-weight condition.  In the cohort script the
ceiling is part of baseline eligibility itself: an eligible subject must have
age ≥ 20, a present composite, hs-CRP ≤ 10 and a present survey weight. -/
theorem c7_eligibility_amended :
    (∀ (age : Option ℚ) (preg : Bool) (h h' alb grip : Option ℚ),
      h.isSome = h'.isSome →
      harm_eligible age preg h alb grip = harm_eligible age preg h' alb grip) ∧
    (∀ (age : Option ℚ) (preg : Bool) (h alb grip : Option ℚ),
      harm_primary age preg h alb grip =
        (harm_eligible age preg h alb grip && optLe h 10)) ∧
    (∀ age iri h w : Option ℚ, build_eligible age iri h w = true →
      optGe age 20 = true ∧ iri.isSome = true ∧ optLe h 10 = true ∧
        w.isSome = true) := by
  refine ⟨?_, ?_, ?_⟩
  · intro age preg h h' alb grip hs
    simp [harm_eligible, hs]
  · intro age preg h alb grip
    rfl
  · intro age iri h w he
    simp only [build_eligible, Bool.and_eq_true] at he
    exact ⟨he.1.1.1, he.1.1.2, he.1.2, he.2⟩

/-- C7 witness: instantiation of the amended theorem — harmonization
eligibility is unchanged when a present hs-CRP of 5 is replaced by a present
hs-CRP of 15. -/
theorem c7_witness :
    harm_eligible (some 30) false (some 5) (some 4) (some 30) =
      harm_eligible (some 30) false (some 15) (some 4) (some 30) :=
  c7_eligibility_amended.1 (some 30) false (some 5) (some 15) (some 4) (some 30) rfl

/-!
Mortality linkage.

`03_link_mortality.py` lines 136-158: the concatenated mortality table is
deduplicated by SEQN (`drop_duplicates`, first occurrence wins), left-merged
onto the cohort, `mortstat` is filled with 0, `followup_years` is
`permth_exm / 12`, and any row whose follow-up is still missing receives 3.5
when its cycle is "2015-2016" and 2.0 when its cycle is "2017-2020".
-/

/-- One decoded mortality record (columns of `load_mortality_file`). -/
structure MortRec where
  seqn : ℤ
  mortstat : Option ℚ
  permth_exm : Option ℚ
deriving DecidableEq

/-- Keep the first record for each SEQN, in order (pandas
`drop_duplicates(subset=['SEQN'])`, `03_link_mortality.py` line 137). -/
def dedupGo (seen : List ℤ) : List MortRec → List MortRec
  | [] => []
  | r :: rs =>
    if r.seqn ∈ seen then dedupGo seen rs
    else r :: dedupGo (r.seqn :: seen) rs

/-- Deduplicated mortality table. -/
def drop_duplicates (t : List MortRec) : List MortRec :=
  dedupGo [] t

/-- Left-merge lookup: the record matched to a cohort subject, if any. -/
def lookupSeqn (t : List MortRec) (s : ℤ) : Option MortRec :=
  t.find? (fun r => decide (r.seqn = s))

/-- Cycle-keyed default follow-up duration (`03_link_mortality.py`, lines
157-158): 3.5 years for "2015-2016", 2.0 years for "2017-2020". -/
def cycleDefaultFollowup (cyc : String) : Option ℚ :=
  if cyc = "2015-2016" then some (7 / 2)
  else if cyc = "2017-2020" then some 2
  else none

/-- Death indicator after linkage (`03_link_mortality.py`, line 147):
the merged `mortstat` with missing values filled with 0. -/
def linked_mortstat (t : List MortRec) (s : ℤ) : ℚ :=
  ((lookupSeqn (drop_duplicates t) s).bind MortRec.mortstat).getD 0

/-- Follow-up duration after linkage (`03_link_mortality.py`, lines 154-158):
linked months divided by 12 when available, otherwise the cycle default. -/
def linked_followup_years (t : List MortRec) (s : ℤ) (cyc : String) : Option ℚ :=
  match (lookupSeqn (drop_duplicates t) s).bind
      (fun r => r.permth_exm.map (fun m => m / 12)) with
  | some y => some y
  | none => cycleDefaultFollowup cyc

/-- C8 counterexample: a subject matched to a mortality record whose
follow-up months are missing does not keep the duration derived from the
linked months (which would be missing) — the code overwrites it with the
cycle constant 3.5. -/
theorem c8_counterexample :
    lookupSeqn (drop_duplicates [⟨5, some 1, none⟩]) 5 = some ⟨5, some 1, none⟩ ∧
    (lookupSeqn (drop_duplicates [⟨5, some 1, none⟩]) 5).bind
      (fun r => r.permth_exm.map (fun m => m / 12)) = none ∧
    linked_followup_years [⟨5, some 1, none⟩] 5 "2015-2016" = some (7 / 2) := by
  refine ⟨rfl, rfl, rfl⟩

/-- C8 amended: after linkage an unmatched subject has death indicator 0 and
the cycle-keyed default follow-up; a matched subject with present linked
months keeps months divided by 12; but a matched subject whose linked months
are missing also receives the cycle-keyed default, not a missing duration. -/
theorem c8_mortality_linkage_amended :
    (∀ (t : List MortRec) (s : ℤ) (cyc : String),
      lookupSeqn (drop_duplicates t) s = none →
      linked_mortstat t s = 0 ∧
        linked_followup_years t s cyc = cycleDefaultFollowup cyc) ∧
    (∀ (t : List MortRec) (s : ℤ) (cyc : String) (r : MortRec) (m : ℚ),
      lookupSeqn (drop_duplicates t) s = some r → r.permth_exm = some m →
      linked_followup_years t s cyc = some (m / 12)) ∧
    (∀ (t : List MortRec) (s : ℤ) (cyc : String) (r : MortRec),
      lookupSeqn (drop_duplicates t) s = some r → r.permth_exm = none →
      linked_followup_years t s cyc = cycleDefaultFollowup cyc) := by
  refine ⟨?_, ?_, ?_⟩
  · intro t s cyc h
    constructor
    · simp [linked_mortstat, h]
    · simp [linked_followup_years, h]
  · intro t s cyc r m h hm
    simp [linked_followup_years, h, hm]
  · intro t s cyc r h hm
    simp [linked_followup_years, h, hm]

/-- C8 witness: instantiation of the amended theorem at an empty mortality
table — the subject is unmatched, gets death indicator 0 and the cycle
default duration. -/
theorem c8_witness :
    linked_mortstat [] 1 = 0 ∧
    linked_followup_years [] 1 "2017-2020" = cycleDefaultFollowup "2017-2020" :=
  c8_mortality_linkage_amended.1 [] 1 "2017-2020" rfl

/-!
Quartile bucketing.

`02_build_cohort.py` line 210: `df['iri_quartile'] = pd.qcut(df['iri'], q=4, labels=[...])`
and `02_harmonize_iri.py` line 499 do the same.  In both scripts this runs
before any eligibility flag is computed and consumes the whole `iri` column.
`pd.qcut` computes the 25/50/75 percent quantile cut points of the present
values by linear interpolation of the sorted data (numpy's default quantile
method), bins with right-closed intervals whose lowest bin includes the
minimum, and leaves missing entries missing.
-/

/-- Insert a value into a sorted list (helper for the sorted order `qcut`
computes quantiles from). -/
def insort (x : ℚ) : List ℚ → List ℚ
  | [] => [x]
  | y :: ys => if x ≤ y then x :: y :: ys else y :: insort x ys

/-- Sorted copy of a list of rationals. -/
def sortQ (l : List ℚ) : List ℚ :=
  l.foldr insort []

/-- Linear-interpolation quantile of a sorted nonempty list at probability
`j/4` (numpy default interpolation at position `h = (j/4) * (n - 1)`:
value `s[⌊h⌋] + (h - ⌊h⌋) * (s[⌊h⌋+1] - s[⌊h⌋])`). -/
def quantileInterp (s : List ℚ) (j : ℕ) : ℚ :=
  let i := (j * (s.length - 1)) / 4
  let t : ℚ := (((j * (s.length - 1)) % 4 : ℕ) : ℚ) / 4
  let lo := s.getD i 0
  let hi := s.getD (i + 1) lo
  lo + t * (hi - lo)

/-- Column semantics of `pd.qcut(column, q=4)`: equal-frequency binning of
the present values with right-closed intervals (a tie at a cut point falls in
the lower bucket); a missing entry stays missing. -/
def qcut4 (xs : List (Option ℚ)) : List (Option ℕ) :=
  let s := sortQ (xs.filterMap id)
  let q1 := quantileInterp s 1
  let q2 := quantileInterp s 2
  let q3 := quantileInterp s 3
  xs.map (Option.map (fun v =>
    if v ≤ q1 then 1 else if v ≤ q2 then 2 else if v ≤ q3 then 3 else 4))

/-- A cohort subject at the quartile step: the composite index value and the
subject's eligibility status. -/
structure CohortRow where
  iri : Option ℚ
  eligible : Bool

/-- Column semantics of the `iri_quartile` assignment (`02_build_cohort.py`
line 210, `02_harmonize_iri.py` line 499): `pd.qcut` applied to the `iri`
column of the whole table, eligible and ineligible subjects alike. -/
def iri_quartile_column (rows : List CohortRow) : List (Option ℕ) :=
  qcut4 (rows.map CohortRow.iri)

/-- C2 test cohort A: eight eligible subjects with index values 1..8 and one
ineligible subject with index value 0. -/
def c2rowsA : List CohortRow :=
  [⟨some 1, true⟩, ⟨some 2, true⟩, ⟨some 3, true⟩, ⟨some 4, true⟩,
   ⟨some 5, true⟩, ⟨some 6, true⟩, ⟨some 7, true⟩, ⟨some 8, true⟩,
   ⟨some 0, false⟩]

/-- C2 test cohort B: the same eight eligible subjects, with the one
ineligible subject's index value changed to 100. -/
def c2rowsB : List CohortRow :=
  [⟨some 1, true⟩, ⟨some 2, true⟩, ⟨some 3, true⟩, ⟨some 4, true⟩,
   ⟨some 5, true⟩, ⟨some 6, true⟩, ⟨some 7, true⟩, ⟨some 8, true⟩,
   ⟨some 100, false⟩]

/-- C2 counterexample: the two test cohorts have identical eligible
subpopulations and differ only in one ineligible subject's index value, yet
the eligible subject with index value 7 moves from quartile 4 to quartile 3 —
so ineligible subjects do contribute to the quartile cut points, contrary to
the claim. -/
theorem c2_counterexample :
    c2rowsA.filter CohortRow.eligible = c2rowsB.filter CohortRow.eligible ∧
    (c2rowsA.getD 6 ⟨none, false⟩).eligible = true ∧
    (c2rowsA.getD 8 ⟨none, false⟩).eligible = false ∧
    (c2rowsB.getD 8 ⟨none, false⟩).eligible = false ∧
    (iri_quartile_column c2rowsA).getD 6 none = some 4 ∧
    (iri_quartile_column c2rowsB).getD 6 none = some 3 := by
  refine ⟨rfl, rfl, rfl, rfl, ?_, ?_⟩ <;>
    norm_num [c2rowsA, c2rowsB, iri_quartile_column, qcut4, sortQ, insort,
      quantileInterp, List.getD, List.foldr, List.filterMap]

/-- C2 amended: the quartile bucket of every subject is computed by
equal-frequency binning of the composite index over the whole table — all
subjects with a non-missing index, eligible or not — and the buckets are
invariant under any change of the eligibility statuses alone. -/
theorem c2_quartiles_amended :
    (∀ rows : List CohortRow, iri_quartile_column rows = qcut4 (rows.map CohortRow.iri)) ∧
    (∀ rows rows' : List CohortRow,
      rows.map CohortRow.iri = rows'.map CohortRow.iri →
      iri_quartile_column rows = iri_quartile_column rows') := by
  refine ⟨fun rows => rfl, ?_⟩
  intro rows rows' h
  unfold iri_quartile_column
  rw [h]

/-- C2 witness: instantiation of the amended theorem at two concrete rows
with the same index values and opposite eligibility statuses. -/
theorem c2_witness :
    iri_quartile_column [⟨some 1, true⟩, ⟨some 2, false⟩] =
      iri_quartile_column [⟨some 1, false⟩, ⟨some 2, true⟩] :=
  c2_quartiles_amended.2 [⟨some 1, true⟩, ⟨some 2, false⟩]
    [⟨some 1, false⟩, ⟨some 2, true⟩] rfl

/-!
Sex-stratified standardization.

`02_build_cohort.py` lines 193-200: per sex subgroup, the z-score assignment
is guarded by `if std_almi > 0:` — a NaN or zero standard deviation fails the
guard (NaN comparisons are False) and every subject of the subgroup keeps the
NaN initialization.

`02_harmonize_iri.py` lines 483-489: per sex subgroup, the only guard is
`if mask.sum() > 0:` (subgroup nonempty); the z-score is the IEEE float
quotient `(grip - mean) / std` with no zero-std guard.  The std (pandas
`Series.std()`, `ddof=1`) is NaN with fewer than two present values and 0
when all present values are equal; IEEE `0.0 / 0.0` is NaN.
-/

/-- Present (non-missing) values of a column. -/
def presentVals (xs : List (Option ℚ)) : List ℚ :=
  xs.filterMap id

/-- Pandas `Series.mean()`: NaN when no value is present. -/
def sampleMean (xs : List (Option ℚ)) : Option ℚ :=
  let v := presentVals xs
  if v.length = 0 then none else some (v.sum / (v.length : ℚ))

/-- Square of pandas `Series.std()` (the `ddof=1` sample variance): NaN with
fewer than two present values.  The std itself is its square root, so the std
is NaN exactly when the variance is, and zero exactly when the variance is. -/
def sampleVar (xs : List (Option ℚ)) : Option ℚ :=
  let v := presentVals xs
  if v.length < 2 then none
  else some ((v.map (fun x => (x - v.sum / (v.length : ℚ)) ^ 2)).sum / ((v.length : ℚ) - 1))

/-- A list of nonnegative rationals with sum zero is all zeros. -/
theorem sum_sq_zero {l : List ℚ} (h0 : ∀ a ∈ l, 0 ≤ a) (hs : l.sum = 0) :
    ∀ a ∈ l, a = 0 := by
  induction l with
  | nil => simp
  | cons x xs ih =>
    simp only [List.sum_cons] at hs
    have hx : 0 ≤ x := h0 x (by simp)
    have hxs : 0 ≤ xs.sum := List.sum_nonneg (fun a ha => h0 a (by simp [ha]))
    have hx0 : x = 0 := by linarith
    have hs0 : xs.sum = 0 := by linarith
    intro a ha
    rcases List.mem_cons.mp ha with h | h
    · exact h ▸ hx0
    · exact ih (fun b hb => h0 b (List.mem_cons_of_mem _ hb)) hs0 a h

/-- When the sample variance of a column is zero, every present value equals
the sample mean. -/
theorem var_zero_all_mean {xs : List (Option ℚ)} (h : sampleVar xs = some 0) :
    ∀ x ∈ presentVals xs,
      x = (presentVals xs).sum / ((presentVals xs).length : ℚ) := by
  unfold sampleVar at h
  set v := presentVals xs with hv
  by_cases hl : v.length < 2
  · simp [hl] at h
  · simp only [hl, if_false] at h
    have hlen : (2:ℕ) ≤ v.length := Nat.le_of_not_lt hl
    have hne : ((v.length : ℚ) - 1) ≠ 0 := by
      have h2 : (2:ℚ) ≤ (v.length : ℚ) := by exact_mod_cast hlen
      linarith
    have hnum : (v.map (fun x => (x - v.sum / (v.length : ℚ)) ^ 2)).sum = 0 := by
      have h0 := Option.some.inj h
      rcases div_eq_zero_iff.mp h0 with h1 | h2
      · exact h1
      · exact absurd h2 hne
    have hsq := sum_sq_zero (l := v.map (fun x => (x - v.sum / (v.length : ℚ)) ^ 2))
      (by intro a ha
          obtain ⟨x, hx, rfl⟩ := List.mem_map.mp ha
          positivity) hnum
    intro x hx
    have hx2 := hsq _ (List.mem_map.mpr ⟨x, hx, rfl⟩)
    have h2 : x - v.sum / (v.length : ℚ) = 0 :=
      pow_eq_zero_iff (n := 2) (by norm_num) |>.mp hx2
    linarith [h2]

/-- One sex subgroup of the stratified ALMI standardization in
`build_iri_cohort` (`02_build_cohort.py` lines 193-200).  `σ` stands for the
subgroup's standard deviation (the square root of `sampleVar`); the source
guard `std_almi > 0` holds exactly when the variance is defined and positive,
since a NaN std compares False.  When the guard fails, every subject of the
subgroup keeps the NaN initialization. -/
def z_almi_subgroup (σ : ℚ) (xs : List (Option ℚ)) : List (Option ℚ) :=
  match sampleVar xs with
  | some v =>
    if 0 < v then
      xs.map (fun ox => ox.map (fun x => (x - (sampleMean xs).getD 0) / σ))
    else xs.map (fun _ => none)
  | none => xs.map (fun _ => none)

/-- IEEE-style scalar for the unguarded harmonization division: a finite
value, NaN, or a signed infinity. -/
inductive FE where
  | fin : ℚ → FE
  | nan : FE
  | pinf : FE
  | ninf : FE
deriving DecidableEq

/-- IEEE subtraction on the operand shapes arising here (NaN propagates;
infinities keep their sign against finite values). -/
def FE.sub : FE → FE → FE
  | FE.fin a, FE.fin b => FE.fin (a - b)
  | FE.fin _, FE.pinf => FE.ninf
  | FE.fin _, FE.ninf => FE.pinf
  | FE.pinf, FE.fin _ => FE.pinf
  | FE.ninf, FE.fin _ => FE.ninf
  | FE.pinf, FE.ninf => FE.pinf
  | FE.ninf, FE.pinf => FE.ninf
  | _, _ => FE.nan

/-- IEEE division on the operand shapes arising here: `0/0` is NaN, a
nonzero finite value over zero is a signed infinity, NaN propagates. -/
def FE.div : FE → FE → FE
  | FE.fin a, FE.fin b =>
    if b = 0 then (if a = 0 then FE.nan else if 0 < a then FE.pinf else FE.ninf)
    else FE.fin (a / b)
  | FE.fin _, FE.pinf => FE.fin 0
  | FE.fin _, FE.ninf => FE.fin 0
  | FE.pinf, FE.fin b => if 0 ≤ b then FE.pinf else FE.ninf
  | FE.ninf, FE.fin b => if 0 ≤ b then FE.ninf else FE.pinf
  | _, _ => FE.nan

/-- A possibly-missing value as an IEEE scalar. -/
def toFE : Option ℚ → FE
  | some a => FE.fin a
  | none => FE.nan

/-- Dividing anything by NaN gives NaN. -/
theorem FE.div_nan (x : FE) : FE.div x FE.nan = FE.nan := by
  cases x <;> rfl

/-- One sex subgroup of the stratified grip standardization in
`construct_iri` (`02_harmonize_iri.py` lines 483-489).  The only guard is
that the subgroup is nonempty.  The subgroup std is NaN when the variance is
(fewer than two present grip values), exactly 0 when the variance is 0, and
otherwise the positive value `√variance`, written `σ` here (its exact value
is irrelevant to missingness). -/
def z_grip_subgroup (σ : ℚ) (xs : List (Option ℚ)) : List FE :=
  if xs.length = 0 then []
  else
    let m : FE := match sampleMean xs with
      | none => FE.nan
      | some a => FE.fin a
    let sd : FE := match sampleVar xs with
      | none => FE.nan
      | some v => if v = 0 then FE.fin 0 else FE.fin σ
    xs.map (fun ox => FE.div (FE.sub (toFE ox) m) sd)

/-- C4: in both scripts, for every sex subgroup whose standard deviation is
zero or undefined, the stratified z-score of every subject in the subgroup is
left missing — in the cohort script because the `std > 0` guard fails, and in
the harmonization script because the unguarded IEEE division evaluates to NaN
(every present value equals the mean when the variance is zero, so the
quotient is `0/0`); in particular no subject's z-score is an infinity or a
silently-substituted finite value. -/
theorem c4_stratified_zero_std_missing (σ1 σ2 : ℚ) (xs : List (Option ℚ))
    (h : sampleVar xs = none ∨ sampleVar xs = some 0) :
    z_almi_subgroup σ1 xs = xs.map (fun _ => none) ∧
    ∀ z ∈ z_grip_subgroup σ2 xs, z = FE.nan := by
  constructor
  · rcases h with hv | hv
    · simp [z_almi_subgroup, hv]
    · simp [z_almi_subgroup, hv]
  · intro z hz
    unfold z_grip_subgroup at hz
    by_cases hlen : xs.length = 0
    · simp [hlen] at hz
    · simp only [hlen, if_false] at hz
      rcases h with hv | hv
      · rw [hv] at hz
        obtain ⟨ox, hox, rfl⟩ := List.mem_map.mp hz
        exact FE.div_nan _
      · rw [hv] at hz
        simp only [if_pos rfl] at hz
        have hplen : presentVals xs ≠ [] := by
          unfold sampleVar at hv
          by_cases hl : (presentVals xs).length < 2
          · simp [hl] at hv
          · intro hnil
            rw [hnil] at hl
            simp at hl
        have hmean : sampleMean xs =
            some ((presentVals xs).sum / ((presentVals xs).length : ℚ)) := by
          unfold sampleMean
          rw [if_neg (by simpa [List.length_eq_zero] using hplen)]
        rw [hmean] at hz
        obtain ⟨ox, hox, rfl⟩ := List.mem_map.mp hz
        cases ox with
        | none => rfl
        | some x =>
          have hx : x ∈ presentVals xs :=
            List.mem_filterMap.mpr ⟨some x, hox, rfl⟩
          have hxm := var_zero_all_mean hv x hx
          simp only [toFE, FE.sub, hxm, sub_self]
          simp [FE.div]

/-- C4 witness: instantiation at the two-subject subgroup with equal present
values (variance zero): both scripts leave both z-scores missing. -/
theorem c4_witness :
    z_almi_subgroup 1 [some 1, some 1] = [some 1, some 1].map (fun _ => none) ∧
    ∀ z ∈ z_grip_subgroup 1 [some 1, some 1], z = FE.nan :=
  c4_stratified_zero_std_missing 1 1 [some 1, some 1]
    (Or.inr (by norm_num [sampleVar, presentVals, List.filterMap]))

/-!
Kidney-function estimate (CKD-EPI 2021, race-free).

`02_build_cohort.py` lines 41-57 (`calculate_egfr_ckdepi2021`): vectorized
`np.where(sex == 2, ...)` parameter selection — any sex code other than 2
(including a missing sex, since `NaN == 2` is False) selects the male
constants — followed by the product formula.  Real exponentiation models the
float `**`.

`02_harmonize_iri.py` lines 207-242 (`compute_egfr_ckdepi_2021`): initializes
the result to NaN and fills only the rows with `sex == 2` (female constants)
or `sex == 1` (male constants); any other sex code keeps NaN.
-/

/-- Row semantics of `calculate_egfr_ckdepi2021` (`02_build_cohort.py`, lines
41-57) on present inputs. -/
noncomputable def calculate_egfr_ckdepi2021 (scr age sex : ℝ) : ℝ :=
  142 * (min (scr / (if sex = 2 then 0.7 else 0.9)) 1) ^ (if sex = 2 then (-0.241:ℝ) else -0.302) *
    (max (scr / (if sex = 2 then 0.7 else 0.9)) 1) ^ (-1.200:ℝ) *
    (0.9938:ℝ) ^ age * (if sex = 2 then (1.012:ℝ) else 1.0)

/-- The spec's eGFR formula, written from its words: `eGFR = 142 ×
min(Scr/κ,1)^α × max(Scr/κ,1)^(-1.200) × 0.9938^age × (1.012 if female else
1.0)` with `κ=0.7, α=-0.241` for female and `κ=0.9, α=-0.302` for male. -/
noncomputable def egfr_spec_formula (scr age : ℝ) (female : Bool) : ℝ :=
  142 * (min (scr / (if female then 0.7 else 0.9)) 1) ^ (if female then (-0.241:ℝ) else -0.302) *
    (max (scr / (if female then 0.7 else 0.9)) 1) ^ (-1.200:ℝ) *
    (0.9938:ℝ) ^ age * (if female then (1.012:ℝ) else 1.0)

/-- Column semantics of `calculate_egfr_ckdepi2021` on possibly-missing
inputs: a missing creatinine or age propagates NaN through the arithmetic,
while a missing (or any non-2) sex code selects the male constants, since
`np.where(sex == 2, ...)` treats `NaN == 2` as False.  `Option.getD 0`
realizes that choice: 0 stands for any value other than 2. -/
noncomputable def build_egfr (oscr oage osex : Option ℝ) : Option ℝ :=
  match oscr, oage with
  | some c, some a => some (calculate_egfr_ckdepi2021 c a (osex.getD 0))
  | _, _ => none

/-- Row semantics of `compute_egfr_ckdepi_2021` (`02_harmonize_iri.py`, lines
207-242): NaN-initialized, filled only on the `sex == 2` and `sex == 1`
masks, with NaN inputs propagating inside each mask. -/
noncomputable def compute_egfr_ckdepi_2021 (oscr oage osex : Option ℝ) : Option ℝ :=
  match osex with
  | some s =>
    if s = 2 then
      match oscr, oage with
      | some c, some a => some (142 * (min (c / 0.7) 1) ^ (-0.241:ℝ) *
          (max (c / 0.7) 1) ^ (-1.200:ℝ) * (0.9938:ℝ) ^ a * 1.012)
      | _, _ => none
    else if s = 1 then
      match oscr, oage with
      | some c, some a => some (142 * (min (c / 0.9) 1) ^ (-0.302:ℝ) *
          (max (c / 0.9) 1) ^ (-1.200:ℝ) * (0.9938:ℝ) ^ a)
      | _, _ => none
    else none
  | none => none

/-- C5: on every subject with present creatinine, age and sex code 2 (female)
or 1 (male), the cohort script's kidney-function estimate equals the spec's
CKD-EPI 2021 formula with the corresponding constants, and at scr = 1.0
mg/dL, age = 50, female it matches the manually computed reference value
68.6335 to four decimal places. -/
theorem c5_egfr_formula_and_value :
    (∀ scr age : ℝ, calculate_egfr_ckdepi2021 scr age 2 = egfr_spec_formula scr age true) ∧
    (∀ scr age : ℝ, calculate_egfr_ckdepi2021 scr age 1 = egfr_spec_formula scr age false) ∧
    (∀ scr age : ℝ, compute_egfr_ckdepi_2021 (some scr) (some age) (some 2) =
      some (egfr_spec_formula scr age true)) ∧
    (∀ scr age : ℝ, compute_egfr_ckdepi_2021 (some scr) (some age) (some 1) =
      some (egfr_spec_formula scr age false)) ∧
    |calculate_egfr_ckdepi2021 1 50 2 - 68.6335| < 1 / 10 ^ 4 := by
  refine ⟨?_, ?_, ?_, ?_, ?_⟩
  · intro scr age
    norm_num [calculate_egfr_ckdepi2021, egfr_spec_formula]
  · intro scr age
    norm_num [calculate_egfr_ckdepi2021, egfr_spec_formula]
  · intro scr age
    norm_num [compute_egfr_ckdepi_2021, egfr_spec_formula]
  · intro scr age
    norm_num [compute_egfr_ckdepi_2021, egfr_spec_formula]
    try ring
  · have hbase : (0:ℝ) ≤ 10 / 7 := by norm_num
    have hD5 : (((10:ℝ)/7) ^ ((6:ℝ)/5)) ^ (5:ℕ) = ((10:ℝ)/7) ^ (6:ℕ) := by
      rw [← Real.rpow_natCast (((10:ℝ)/7) ^ ((6:ℝ)/5)) 5, ← Real.rpow_mul hbase,
        show ((6:ℝ)/5) * ((5:ℕ):ℝ) = ((6:ℕ):ℝ) by norm_num, Real.rpow_natCast]
    have hDpos : (0:ℝ) < ((10:ℝ)/7) ^ ((6:ℝ)/5) := Real.rpow_pos_of_pos (by norm_num) _
    have hd1 : (1.5342013:ℝ) ≤ ((10:ℝ)/7) ^ ((6:ℝ)/5) := by
      have h5 : (1.5342013:ℝ) ^ (5:ℕ) ≤ (((10:ℝ)/7) ^ ((6:ℝ)/5)) ^ (5:ℕ) := by
        rw [hD5]; norm_num
      exact le_of_pow_le_pow_left₀ (by norm_num) (le_of_lt hDpos) h5
    have hd2 : ((10:ℝ)/7) ^ ((6:ℝ)/5) ≤ 1.5342014 := by
      have h5 : (((10:ℝ)/7) ^ ((6:ℝ)/5)) ^ (5:ℕ) ≤ (1.5342014:ℝ) ^ (5:ℕ) := by
        rw [hD5]; norm_num
      exact le_of_pow_le_pow_left₀ (by norm_num) (by norm_num) h5
    have hu1 : (0.65180490:ℝ) ≤ (((10:ℝ)/7) ^ ((6:ℝ)/5))⁻¹ := by
      have h1 : (0.65180490:ℝ) ≤ (1.5342014:ℝ)⁻¹ := by norm_num
      exact h1.trans (inv_anti₀ hDpos hd2)
    have hu2 : (((10:ℝ)/7) ^ ((6:ℝ)/5))⁻¹ ≤ 0.65180495 := by
      have h1 : (1.5342013:ℝ)⁻¹ ≤ 0.65180495 := by norm_num
      exact (inv_anti₀ (by norm_num) hd1).trans h1
    have hv1 : (0.73273952:ℝ) ≤ (0.9938:ℝ) ^ (50:ℕ) := by norm_num
    have hv2 : (0.9938:ℝ) ^ (50:ℕ) ≤ 0.73273953 := by norm_num
    have hval : calculate_egfr_ckdepi2021 1 50 2 =
        142 * (((10:ℝ)/7) ^ ((6:ℝ)/5))⁻¹ * ((0.9938:ℝ) ^ (50:ℕ)) * 1.012 := by
      unfold calculate_egfr_ckdepi2021
      rw [if_pos rfl, if_pos rfl, if_pos rfl,
        show (1:ℝ)/(0.7:ℝ) = 10/7 by norm_num,
        min_eq_right (by norm_num : (1:ℝ) ≤ 10/7),
        max_eq_left (by norm_num : (1:ℝ) ≤ 10/7),
        show (-0.241:ℝ) = -(0.241:ℝ) by norm_num, Real.one_rpow,
        show (-1.200:ℝ) = -((6:ℝ)/5) by norm_num,
        Real.rpow_neg hbase,
        show (50:ℝ) = ((50:ℕ):ℝ) by norm_num, Real.rpow_natCast]
      ring
    rw [hval, abs_sub_lt_iff]
    set u : ℝ := (((10:ℝ)/7) ^ ((6:ℝ)/5))⁻¹ with hu
    set v : ℝ := (0.9938:ℝ) ^ (50:ℕ) with hv
    have hvpos : (0:ℝ) ≤ v := by positivity
    have hupos : (0:ℝ) ≤ u := by positivity
    have huv_hi : u * v ≤ (0.65180495:ℝ) * 0.73273953 :=
      mul_le_mul hu2 hv2 hvpos (by norm_num)
    have huv_lo : (0.65180490:ℝ) * 0.73273952 ≤ u * v :=
      mul_le_mul hu1 hv1 (by norm_num) hupos
    constructor
    · nlinarith [huv_hi]
    · nlinarith [huv_lo]

/-- C9 counterexample: the two kidney-function implementations disagree on a
row with sex code 3 and present inputs — the cohort script returns the
male-constants value while the harmonization script returns missing. -/
theorem c9_counterexample :
    build_egfr (some 1) (some 50) (some 3) ≠
      compute_egfr_ckdepi_2021 (some 1) (some 50) (some 3) := by
  norm_num [build_egfr, compute_egfr_ckdepi_2021]
  exact Option.some_ne_none _

/-- C9 amended: the two implementations compute the same function on every
row whose sex code is 1 or 2, missing inputs included; they differ exactly on
rows with any other (or missing) sex code, where the cohort script falls back
to the male constants and the harmonization script returns missing. -/
theorem c9_egfr_agreement_amended :
    (∀ oscr oage : Option ℝ,
      build_egfr oscr oage (some 1) = compute_egfr_ckdepi_2021 oscr oage (some 1)) ∧
    (∀ oscr oage : Option ℝ,
      build_egfr oscr oage (some 2) = compute_egfr_ckdepi_2021 oscr oage (some 2)) := by
  constructor <;> intro oscr oage <;> cases oscr <;> cases oage <;>
    · norm_num [build_egfr, compute_egfr_ckdepi_2021, calculate_egfr_ckdepi2021]
      try ring

end IRI
